import Mathlib

/-!
Verification development for the tiny-crawl service.

The embedding covers:
* `src/config.py` — the `Settings` defaults and the `max_concurrent_crawls`
  field validator;
* `src/crawler.py` — `CrawlerService.crawl_url`, embedded as a sequential
  function over an execution oracle that fixes the result of each await
  point (the semaphore acquisition and the backend invocation), returning
  the Python-level result together with the slot-accounting effects of the
  try/finally structure;
* the `asyncio.Semaphore` admission gate, embedded as a small transition
  system over event traces;
* `src/main.py` — the `/crawl` endpoint handler, embedded as the mapping
  from the service outcome to a wire-level JSON response.
-/

namespace TinyCrawl

/-- `listStartsWith sub s` is true when `sub` is an initial segment of `s`.
Building block for Python's substring test. -/
def listStartsWith : List Char → List Char → Bool
  | [], _ => true
  | _ :: _, [] => false
  | a :: as, b :: bs => a == b && listStartsWith as bs

/-- `listContainsSub sub s` is true when `sub` occurs contiguously in `s`. -/
def listContainsSub (sub : List Char) : List Char → Bool
  | [] => sub.isEmpty
  | c :: rest => listStartsWith sub (c :: rest) || listContainsSub sub rest

/-- Python's `sub in s` substring test on strings. -/
def strContains (s sub : String) : Bool := listContainsSub sub.data s.data

/-- Python `x or default` for an optional integer argument: `None` and `0`
are falsy, so both select the default. Embeds line 77 of `src/crawler.py`
(`timeout = timeout or settings.crawl_timeout`). -/
def pyOrNat (x : Option Nat) (default : Nat) : Nat :=
  match x with
  | none => default
  | some v => if v = 0 then default else v

/-- Python `s or default` for an optional string: `None` and `""` are falsy.
Embeds `result.error_message or "Unknown error"` in `src/crawler.py`. -/
def pyOrStr (x : Option String) (default : String) : String :=
  match x with
  | none => default
  | some v => if v = "" then default else v

/-- The configuration fields of `src/config.py` consumed by the core, with
their declared defaults. -/
structure Settings where
  crawl_timeout : Nat := 60
  max_concurrent_crawls : Int := 1
  queue_timeout : Nat := 60
deriving Repr, DecidableEq

/-- The `validate_max_concurrent_crawls` field validator of `src/config.py`:
a configured value below 1 is corrected to 1, any other value is kept. -/
def validate_max_concurrent_crawls (v : Int) : Int :=
  if v < 1 then 1 else v

/-- The capacity the admission gate is initialized with: `CrawlerService.__init__`
passes `settings.max_concurrent_crawls`, which pydantic has already run
through `validate_max_concurrent_crawls`. -/
def effectiveCapacity (configured : Int) : Int :=
  validate_max_concurrent_crawls configured

/-- A Python exception as observed by the handlers in `crawl_url`:
either an `asyncio.TimeoutError` (matched by the first `except`) or any
other `Exception` (matched by the second), each carrying its `str(e)`. -/
inductive PyExn where
  | timeoutError (msg : String)
  | exn (msg : String)
deriving Repr, DecidableEq

/-- Result of `await asyncio.wait_for(self.semaphore.acquire(), queue_timeout)`:
the slot was granted, or the wait timed out. -/
inductive AcquireResult where
  | granted
  | timedOut
deriving Repr, DecidableEq

/-- Outcome of the backend invocation
`await asyncio.wait_for(crawler.arun(url, run_config), timeout)`:
a successful `CrawlResult` (carrying `fit_markdown` and `raw_markdown`),
a non-success `CrawlResult` (carrying `error_message`, `None` possible),
the `wait_for` deadline elapsing (an `asyncio.TimeoutError` with empty
message), or an arbitrary exception raised by the backend or while mapping
its result. -/
inductive BackendOutcome where
  | success (fit_markdown raw_markdown : String)
  | failure (error_message : Option String)
  | timedOut
  | raised (e : PyExn)
deriving Repr, DecidableEq

/-- Execution oracle: fixes what the environment does at each await point of
one `crawl_url` call. `queueWait` is the wall-clock time spent waiting for
the slot (the code only logs it). `setup` is an exception raised, if any,
while building `PruningContentFilter` / `DefaultMarkdownGenerator` /
`CrawlerRunConfig` or entering the `AsyncWebCrawler` context, i.e. after
admission but before the backend invocation. -/
structure ExecOracle where
  acquire : AcquireResult
  queueWait : Nat := 0
  setup : Option PyExn := none
  backend : BackendOutcome
deriving Repr, DecidableEq

/-- Record of the backend invocation actually performed: which URL, which
filter options, and the deadline handed to `asyncio.wait_for`. -/
structure BackendCall where
  url : String
  filter_threshold : Rat
  min_word_threshold : Nat
  deadline : Nat
deriving Repr, DecidableEq

/-- The success dictionary built by `crawl_url`: `markdown` is always
present, `raw_markdown` is a key only present when `include_raw` was set. -/
structure CrawlOk where
  markdown : String
  raw_markdown : Option String
deriving Repr, DecidableEq

deriving instance DecidableEq for Except

/-- Observable effect of one `crawl_url` call: the returned value or raised
exception, whether the semaphore was decremented, how many `release()` calls
ran, and the backend invocation performed (if reached). -/
structure CrawlEffect where
  result : Except PyExn CrawlOk
  acquired : Bool
  released : Nat
  call : Option BackendCall
deriving Repr, DecidableEq

/-- The execution-timeout message raised at line 146 of `src/crawler.py`:
`f"Crawl operation timed out after {timeout} seconds"`. -/
def execTimeoutMsg (timeout : Nat) : String :=
  "Crawl operation timed out after " ++ Nat.repr timeout ++ " seconds"

/-- The two `except` clauses guarding the admitted section of `crawl_url`
(lines 141-149): an `asyncio.TimeoutError` whose message contains
"Service too busy" is re-raised unchanged, any other `asyncio.TimeoutError`
is replaced by the execution-timeout message, and every other exception is
re-raised unchanged. -/
def handleAdmittedExn (timeout : Nat) : PyExn → PyExn
  | .timeoutError m =>
      if strContains m "Service too busy" then .timeoutError m
      else .timeoutError (execTimeoutMsg timeout)
  | .exn m => .exn m

namespace CrawlerService

/-- Embedding of `CrawlerService.crawl_url` (`src/crawler.py`, lines 52-153).

The timeout defaulting, the queue-timeout handler, the admitted
try/except/finally and the response construction follow the source line by
line; the oracle `o` fixes the outcome of each await point. On every path
entered after the semaphore was granted, the `finally` block runs exactly
one `release()`, which the embedding records in `released`. -/
def crawl_url (timeout? : Option Nat) (url : String) (filter_threshold : Rat)
    (min_word_threshold : Nat) (include_raw : Bool) (s : Settings)
    (o : ExecOracle) : CrawlEffect :=
  let timeout := pyOrNat timeout? s.crawl_timeout
  match o.acquire with
  | .timedOut =>
      -- lines 89-92: the queue-timeout handler raises before the inner
      -- try/finally is entered: no slot held, no release.
      { result := .error (.timeoutError "Service too busy, please retry later")
        acquired := false, released := 0, call := none }
  | .granted =>
      match o.setup with
      | some e =>
          -- an exception between admission and the backend call still flows
          -- through the except clauses and the finally release.
          { result := .error (handleAdmittedExn timeout e)
            acquired := true, released := 1, call := none }
      | none =>
          let call : BackendCall :=
            { url := url, filter_threshold := filter_threshold
              min_word_threshold := min_word_threshold, deadline := timeout }
          match o.backend with
          | .success fit raw =>
              { result := .ok { markdown := fit
                                raw_markdown := if include_raw then some raw else none }
                acquired := true, released := 1, call := some call }
          | .failure msg =>
              -- line 139: raise Exception(f"Crawl failed: {error_msg}")
              { result := .error (handleAdmittedExn timeout
                  (.exn ("Crawl failed: " ++ pyOrStr msg "Unknown error")))
                acquired := true, released := 1, call := some call }
          | .timedOut =>
              -- wait_for raises a bare asyncio.TimeoutError (empty message)
              { result := .error (handleAdmittedExn timeout (.timeoutError ""))
                acquired := true, released := 1, call := some call }
          | .raised e =>
              { result := .error (handleAdmittedExn timeout e)
                acquired := true, released := 1, call := some call }

end CrawlerService

/-- Interface model of `await asyncio.wait_for(semaphore.acquire(), maxWait)`:
granted immediately when a slot is free; otherwise granted exactly when some
holder releases strictly before the deadline (`nextRelease` is the delay, if
any, until the release that would wake this waiter), else a timeout. -/
def waitForAcquire (available : Nat) (nextRelease : Option Nat) (maxWait : Nat) :
    AcquireResult :=
  if 0 < available then .granted
  else
    match nextRelease with
    | some t => if t < maxWait then .granted else .timedOut
    | none => .timedOut

/-- An event observed at the admission gate (`self.semaphore` of
`CrawlerService`): a waiter completes `acquire()` (only possible while the
counter is positive), a waiter gives up on `wait_for`'s deadline without
touching the counter, or a holder runs `release()` in its `finally` block
(an unconditional increment, as in `asyncio.Semaphore.release`). -/
inductive GateEvent where
  | acquire
  | timeout
  | release
deriving Repr, DecidableEq

/-- One step of the `asyncio.Semaphore` counter (`available` is `_value`). -/
def gateStep (available : Nat) : GateEvent → Option Nat
  | .acquire => if 0 < available then some (available - 1) else none
  | .timeout => some available
  | .release => some (available + 1)

/-- Run the gate from a given counter over a trace of events. -/
def gateRunFrom (available : Nat) : List GateEvent → Option Nat
  | [] => some available
  | e :: es =>
      match gateStep available e with
      | some a => gateRunFrom a es
      | none => none

/-- Run the gate from its initial counter, `Semaphore(capacity)`. -/
def gateRun (capacity : Nat) (tr : List GateEvent) : Option Nat :=
  gateRunFrom capacity tr

/-- Number of completed acquisitions in a trace. -/
def countAcquire : List GateEvent → Nat
  | [] => 0
  | .acquire :: es => countAcquire es + 1
  | _ :: es => countAcquire es

/-- Number of releases in a trace. -/
def countRelease : List GateEvent → Nat
  | [] => 0
  | .release :: es => countRelease es + 1
  | _ :: es => countRelease es

/-- Jobs holding a slot (admitted and not yet released) after a trace: each
job acquires at most once and releases exactly once at its end, so the
holders are the acquisitions not yet paired with their release. -/
def executingJobs (tr : List GateEvent) : Nat :=
  countAcquire tr - countRelease tr

/-- The request body of the `/crawl` endpoint (`src/models.py`), with its
declared defaults. -/
structure CrawlRequest where
  url : String
  include_raw_markdown : Bool := false
  filter_threshold : Rat := 0.48
  min_word_threshold : Nat := 5
deriving Repr, DecidableEq

/-- The wire-level response produced by the `/crawl` handler: HTTP status,
the `success` flag, the payload or error fields, and the `Retry-After`
header when present. -/
structure WireResponse where
  status : Nat
  success : Bool
  markdown : Option String := none
  raw_markdown : Option String := none
  error : Option String := none
  retryAfterHeader : Option String := none
deriving Repr, DecidableEq

namespace Main

/-- Embedding of the `/crawl` handler `crawl_url` of `src/main.py`
(lines 76-154).

The handler invokes the service with the request's filter parameters but —
as in the source — without forwarding `include_raw_markdown`, so the
service runs with its default `include_raw = False` and the returned dict
never carries the `raw_markdown` key. When `include_raw_markdown` is true
the expression `result["raw_markdown"]` therefore raises `KeyError`
(`str(e)` is `"\x27raw_markdown\x27"`), which falls into the generic
`except Exception` branch and is surfaced as a 502 error response. -/
def crawl_url (req : CrawlRequest) (s : Settings) (o : ExecOracle) : WireResponse :=
  let eff := CrawlerService.crawl_url none req.url req.filter_threshold
    req.min_word_threshold false s o
  match eff.result with
  | .ok r =>
      if req.include_raw_markdown then
        match r.raw_markdown with
        | some raw =>
            { status := 200, success := true, markdown := some r.markdown
              raw_markdown := some raw }
        | none =>
            -- KeyError from result["raw_markdown"], caught by except Exception
            { status := 502, success := false
              error := some ("Failed to crawl URL: \x27raw_markdown\x27") }
      else
        { status := 200, success := true, markdown := some r.markdown
          raw_markdown := none }
  | .error (.timeoutError m) =>
      if strContains m "Service too busy" then
        { status := 503, success := false, error := some m
          retryAfterHeader := some "60" }
      else
        { status := 502, success := false, error := some m }
  | .error (.exn m) =>
      { status := 502, success := false
        error := some ("Failed to crawl URL: " ++ m) }

end Main

/-! ### Helper lemmas -/

theorem mem_of_listStartsWith (sub s : List Char) (h : listStartsWith sub s = true) :
    ∀ c ∈ sub, c ∈ s := by
  induction sub generalizing s with
  | nil => intro c hc; cases hc
  | cons a as ih =>
    cases s with
    | nil => simp [listStartsWith] at h
    | cons b bs =>
      rw [listStartsWith, Bool.and_eq_true, beq_iff_eq] at h
      intro c hc
      rcases List.mem_cons.mp hc with rfl | hc
      · exact h.1 ▸ List.mem_cons_self b bs
      · exact List.mem_cons_of_mem b (ih bs h.2 c hc)

theorem mem_of_listContainsSub (sub s : List Char) (h : listContainsSub sub s = true) :
    ∀ c ∈ sub, c ∈ s := by
  induction s with
  | nil =>
    cases sub with
    | nil => intro c hc; cases hc
    | cons a as => simp [listContainsSub, List.isEmpty] at h
  | cons b bs ih =>
    rw [listContainsSub, Bool.or_eq_true] at h
    rcases h with h | h
    · exact mem_of_listStartsWith _ _ h
    · intro c hc
      exact List.mem_cons_of_mem b (ih h c hc)

theorem listContainsSub_eq_false_of_not_mem (sub s : List Char) (c : Char)
    (hc : c ∈ sub) (hs : c ∉ s) : listContainsSub sub s = false := by
  cases h : listContainsSub sub s with
  | false => rfl
  | true => exact absurd (mem_of_listContainsSub sub s h c hc) hs

theorem digitChar_ne_S (n : Nat) : Nat.digitChar n ≠ 'S' := by
  rcases Nat.lt_or_ge n 16 with h | h
  · interval_cases n <;> decide
  · have h0 : Nat.digitChar n = '*' := by
      unfold Nat.digitChar
      rw [if_neg (by omega : ¬ n = 0), if_neg (by omega : ¬ n = 1),
        if_neg (by omega : ¬ n = 2), if_neg (by omega : ¬ n = 3),
        if_neg (by omega : ¬ n = 4), if_neg (by omega : ¬ n = 5),
        if_neg (by omega : ¬ n = 6), if_neg (by omega : ¬ n = 7),
        if_neg (by omega : ¬ n = 8), if_neg (by omega : ¬ n = 9),
        if_neg (by omega : ¬ n = 10), if_neg (by omega : ¬ n = 11),
        if_neg (by omega : ¬ n = 12), if_neg (by omega : ¬ n = 13),
        if_neg (by omega : ¬ n = 14), if_neg (by omega : ¬ n = 15)]
    rw [h0]; decide

theorem toDigitsCore_ne_S (b fuel n : Nat) (acc : List Char)
    (hacc : ∀ c ∈ acc, c ≠ 'S') : ∀ c ∈ Nat.toDigitsCore b fuel n acc, c ≠ 'S' := by
  induction fuel generalizing n acc with
  | zero => simpa [Nat.toDigitsCore] using hacc
  | succ f ih =>
    rw [Nat.toDigitsCore]
    split
    · intro c hc
      rcases List.mem_cons.mp hc with h | h
      · exact h ▸ digitChar_ne_S _
      · exact hacc c h
    · apply ih
      intro c hc
      rcases List.mem_cons.mp hc with h | h
      · exact h ▸ digitChar_ne_S _
      · exact hacc c h

theorem repr_ne_S (n : Nat) : ∀ c ∈ (Nat.repr n).data, c ≠ 'S' := by
  show ∀ c ∈ Nat.toDigits 10 n, c ≠ 'S'
  exact toDigitsCore_ne_S 10 (n + 1) n [] (by simp)

/-- The execution-timeout message never contains the queue-timeout marker:
it has no capital S at all (the digits of the timeout cannot introduce one). -/
theorem execTimeoutMsg_not_busy (n : Nat) :
    strContains (execTimeoutMsg n) "Service too busy" = false := by
  unfold strContains execTimeoutMsg
  apply listContainsSub_eq_false_of_not_mem _ _ 'S' (by decide)
  rw [String.data_append, String.data_append]
  intro hmem
  rcases List.mem_append.mp hmem with hmem | hmem
  · rcases List.mem_append.mp hmem with hmem | hmem
    · exact absurd hmem (by decide)
    · exact repr_ne_S n 'S' hmem rfl
  · exact absurd hmem (by decide)

/-- On a non-busy timeout message, `handleAdmittedExn` substitutes the
execution-timeout message. -/
theorem handleAdmittedExn_timeout (t : Nat) (m : String)
    (h : strContains m "Service too busy" = false) :
    handleAdmittedExn t (.timeoutError m) = .timeoutError (execTimeoutMsg t) := by
  rw [handleAdmittedExn, h]
  rfl

/-- Conservation at the gate: along any valid trace, the final counter plus
the completed acquisitions equals the initial counter plus the releases. -/
theorem gateRunFrom_balance (tr : List GateEvent) :
    ∀ a a', gateRunFrom a tr = some a' →
      a' + countAcquire tr = a + countRelease tr := by
  induction tr with
  | nil =>
    intro a a' h
    simp only [gateRunFrom, Option.some_inj] at h
    simp [countAcquire, countRelease, h]
  | cons e es ih =>
    intro a a' h
    cases e with
    | acquire =>
      by_cases ha : 0 < a
      · simp only [gateRunFrom, gateStep, if_pos ha] at h
        have hb := ih _ _ h
        simp only [countAcquire, countRelease]
        omega
      · simp only [gateRunFrom, gateStep, if_neg ha] at h
        exact absurd h (by simp)
    | timeout =>
      simp only [gateRunFrom, gateStep] at h
      have hb := ih _ _ h
      simp only [countAcquire, countRelease]
      omega
    | release =>
      simp only [gateRunFrom, gateStep] at h
      have hb := ih _ _ h
      simp only [countAcquire, countRelease]
      omega

/-! ### Claims -/

/-- **C1**: for every job whose semaphore acquisition succeeds, exactly one
`release()` runs before `crawl_url` returns or raises, for every terminal
outcome: backend success, execution timeout, backend-reported failure, and
any unexpected exception raised during timer setup, the backend invocation,
or result mapping. -/
theorem claim_C1_release_exactly_once (timeout? : Option Nat) (url : String)
    (ft : Rat) (mw : Nat) (ir : Bool) (s : Settings) (o : ExecOracle)
    (h : (CrawlerService.crawl_url timeout? url ft mw ir s o).acquired = true) :
    (CrawlerService.crawl_url timeout? url ft mw ir s o).released = 1 := by
  obtain ⟨acq, qw, setup, backend⟩ := o
  cases acq with
  | timedOut => exact Bool.noConfusion h
  | granted =>
    cases setup with
    | some e => rfl
    | none => cases backend <;> rfl

theorem claim_C1_witness :
    (CrawlerService.crawl_url none "https://example.com" 0.48 5 false {}
      { acquire := .granted, backend := .raised (.exn "boom") }).released = 1 :=
  claim_C1_release_exactly_once none "https://example.com" 0.48 5 false {}
    { acquire := .granted, backend := .raised (.exn "boom") } rfl

/-- **C2**: along any valid event trace of the admission gate started at its
configured capacity, the number of jobs simultaneously holding a slot
(acquired and not yet released) never exceeds the capacity. -/
theorem claim_C2_capacity_invariant (capacity : Nat) (tr : List GateEvent)
    (a : Nat) (h : gateRun capacity tr = some a) :
    executingJobs tr ≤ capacity := by
  have hb := gateRunFrom_balance tr capacity a h
  unfold executingJobs
  omega

theorem claim_C2_witness :
    executingJobs [.acquire, .acquire, .timeout, .release, .acquire, .release,
      .release] ≤ 2 :=
  claim_C2_capacity_invariant 2
    [.acquire, .acquire, .timeout, .release, .acquire, .release, .release] 2
    (by decide)

/-- **C3**: a job whose admission wait times out consumes no slot: the
semaphore was never decremented for it, no release is performed, the
queue-timeout error is raised, and a timeout event leaves the gate counter
unchanged. -/
theorem claim_C3_queue_timeout_no_slot (timeout? : Option Nat) (url : String)
    (ft : Rat) (mw : Nat) (ir : Bool) (s : Settings) (o : ExecOracle)
    (h : o.acquire = .timedOut) :
    (CrawlerService.crawl_url timeout? url ft mw ir s o).acquired = false ∧
    (CrawlerService.crawl_url timeout? url ft mw ir s o).released = 0 ∧
    (CrawlerService.crawl_url timeout? url ft mw ir s o).result =
      .error (.timeoutError "Service too busy, please retry later") ∧
    ∀ a : Nat, gateStep a .timeout = some a := by
  obtain ⟨acq, qw, setup, backend⟩ := o
  subst h
  exact ⟨rfl, rfl, rfl, fun _ => rfl⟩

theorem claim_C3_witness :
    (CrawlerService.crawl_url none "https://example.com" 0.48 5 false {}
      { acquire := .timedOut, backend := .success "fit" "raw" }).released = 0 :=
  (claim_C3_queue_timeout_no_slot none "https://example.com" 0.48 5 false {}
    { acquire := .timedOut, backend := .success "fit" "raw" } rfl).2.1

/-- **C4** (refutation of the claim — the code has a bug): a request with
`include_raw_markdown = true` whose backend invocation succeeds is NOT
answered with a success carrying the raw variant. `src/main.py` never
forwards the flag to the service, the returned dict has no `raw_markdown`
key, `result["raw_markdown"]` raises `KeyError`, and the caller receives a
502 error response. The repository's own test `test_include_raw_markdown`
expects a success carrying `raw_markdown`. -/
theorem claim_C4_include_raw_lost :
    Main.crawl_url { url := "https://example.com", include_raw_markdown := true }
      {} { acquire := .granted, backend := .success "fit content" "raw content" } =
    { status := 502, success := false
      error := some "Failed to crawl URL: \x27raw_markdown\x27" } := by
  rfl

/-- **C6**: a configured capacity below 1 yields an effective admission-gate
capacity of exactly 1; a configured capacity of at least 1 is used
unchanged. -/
theorem claim_C6_min_capacity (v : Int) :
    (v < 1 → effectiveCapacity v = 1) ∧ (1 ≤ v → effectiveCapacity v = v) := by
  constructor
  · intro h
    simp [effectiveCapacity, validate_max_concurrent_crawls, h]
  · intro h
    simp [effectiveCapacity, validate_max_concurrent_crawls, not_lt.mpr h]

theorem claim_C6_witness :
    effectiveCapacity (-3) = 1 ∧ effectiveCapacity 8 = 8 :=
  ⟨(claim_C6_min_capacity (-3)).1 (by decide),
    (claim_C6_min_capacity 8).2 (by decide)⟩

/-- **C7**: with a queue timeout of 0 the acquisition is a non-blocking
probe: a free slot is granted immediately, and with no free slot the job
fails immediately with the queue-timeout outcome, whatever release schedule
would follow. -/
theorem claim_C7_zero_wait_probe (available : Nat) (nextRelease : Option Nat)
    (timeout? : Option Nat) (url : String) (ft : Rat) (mw : Nat) (ir : Bool)
    (s : Settings) (qw : Nat) (setup : Option PyExn) (backend : BackendOutcome) :
    (0 < available → waitForAcquire available nextRelease 0 = .granted) ∧
    (available = 0 →
      waitForAcquire available nextRelease 0 = .timedOut ∧
      (CrawlerService.crawl_url timeout? url ft mw ir s
        { acquire := waitForAcquire available nextRelease 0, queueWait := qw
          setup := setup, backend := backend }).result =
        .error (.timeoutError "Service too busy, please retry later")) := by
  constructor
  · intro h
    rw [waitForAcquire.eq_def, if_pos h]
  · intro h
    subst h
    have ht : waitForAcquire 0 nextRelease 0 = .timedOut := by
      cases nextRelease <;> simp [waitForAcquire]
    refine ⟨ht, ?_⟩
    rw [ht]
    rfl

theorem claim_C7_witness :
    waitForAcquire 2 none 0 = .granted ∧ waitForAcquire 0 (some 5) 0 = .timedOut :=
  ⟨(claim_C7_zero_wait_probe 2 none none "u" 0.48 5 false {} 0 none
      (.success "f" "r")).1 (by decide),
    ((claim_C7_zero_wait_probe 0 (some 5) none "u" 0.48 5 false {} 0 none
      (.success "f" "r")).2 rfl).1⟩

/-- **C8**: a job admitted after any queue wait shorter than the queue
timeout hands the backend invocation the full configured execution timeout;
the result of `crawl_url` does not depend on the time spent waiting. -/
theorem claim_C8_fresh_exec_budget (timeout? : Option Nat) (url : String)
    (ft : Rat) (mw : Nat) (ir : Bool) (s : Settings) (o : ExecOracle) (t : Nat)
    (hq : o.queueWait < s.queue_timeout) (ha : o.acquire = .granted)
    (hs : o.setup = none) :
    (CrawlerService.crawl_url timeout? url ft mw ir s o).call.map
        BackendCall.deadline = some (pyOrNat timeout? s.crawl_timeout) ∧
    CrawlerService.crawl_url timeout? url ft mw ir s { o with queueWait := t } =
      CrawlerService.crawl_url timeout? url ft mw ir s o := by
  obtain ⟨acq, qw, setup, backend⟩ := o
  subst ha
  subst hs
  cases backend <;> exact ⟨rfl, rfl⟩

theorem claim_C8_witness :
    (CrawlerService.crawl_url none "https://example.com" 0.48 5 false {}
      { acquire := .granted, queueWait := 59, backend := .timedOut }).call.map
        BackendCall.deadline = some 60 :=
  (claim_C8_fresh_exec_budget none "https://example.com" 0.48 5 false {}
    { acquire := .granted, queueWait := 59, backend := .timedOut } 7
    (by decide) rfl rfl).1

/-- **C9**: an explicit caller-supplied execution timeout of 0 is falsy for
Python's `or`, so the deadline handed to the backend invocation is the
default `settings.crawl_timeout`, not 0; the call behaves exactly as if no
timeout had been supplied. -/
theorem claim_C9_zero_timeout_default (url : String) (ft : Rat) (mw : Nat)
    (ir : Bool) (s : Settings) (o : ExecOracle)
    (ha : o.acquire = .granted) (hs : o.setup = none) :
    (CrawlerService.crawl_url (some 0) url ft mw ir s o).call.map
        BackendCall.deadline = some s.crawl_timeout ∧
    CrawlerService.crawl_url (some 0) url ft mw ir s o =
      CrawlerService.crawl_url none url ft mw ir s o := by
  obtain ⟨acq, qw, setup, backend⟩ := o
  subst ha
  subst hs
  cases backend <;> exact ⟨rfl, rfl⟩

theorem claim_C9_witness :
    (CrawlerService.crawl_url (some 0) "https://example.com" 0.48 5 false {}
      { acquire := .granted, backend := .success "fit" "raw" }).call.map
        BackendCall.deadline = some 60 :=
  (claim_C9_zero_timeout_default "https://example.com" 0.48 5 false {}
    { acquire := .granted, backend := .success "fit" "raw" } rfl rfl).1

/-- **C5**: every job is classified into exactly one of the mutually
exclusive failure classes or a success: a queue timeout becomes a distinct
retryable 503 with a `Retry-After` header, an execution timeout a distinct
502 upstream-timeout, and a backend-reported failure a 502 upstream-error
carrying the backend's reason; a queue timeout is never classified as an
execution failure and vice versa. -/
theorem claim_C5_failure_classification (req : CrawlRequest) (s : Settings)
    (o : ExecOracle) :
    (o.acquire = .timedOut →
      Main.crawl_url req s o =
        { status := 503, success := false
          error := some "Service too busy, please retry later"
          retryAfterHeader := some "60" }) ∧
    (o.acquire = .granted → o.setup = none → o.backend = .timedOut →
      Main.crawl_url req s o =
        { status := 502, success := false
          error := some (execTimeoutMsg s.crawl_timeout) }) ∧
    (∀ m, o.acquire = .granted → o.setup = none → o.backend = .failure m →
      Main.crawl_url req s o =
        { status := 502, success := false
          error := some ("Failed to crawl URL: " ++
            ("Crawl failed: " ++ pyOrStr m "Unknown error")) }) := by
  obtain ⟨acq, qw, setup, backend⟩ := o
  refine ⟨?_, ?_, ?_⟩
  · intro h
    subst h
    rfl
  · intro h1 h2 h3
    subst h1
    subst h2
    subst h3
    have hb : strContains (execTimeoutMsg s.crawl_timeout) "Service too busy"
        = false := execTimeoutMsg_not_busy _
    show (if strContains (execTimeoutMsg s.crawl_timeout) "Service too busy" = true
        then ({ status := 503, success := false
                error := some (execTimeoutMsg s.crawl_timeout)
                retryAfterHeader := some "60" } : WireResponse)
        else { status := 502, success := false
               error := some (execTimeoutMsg s.crawl_timeout) }) = _
    rw [hb]
    rfl
  · intro m h1 h2 h3
    subst h1
    subst h2
    subst h3
    rfl

theorem claim_C5_witness :
    Main.crawl_url { url := "https://example.com" } {}
      { acquire := .granted, backend := .failure none } =
    { status := 502, success := false
      error := some ("Failed to crawl URL: " ++
        ("Crawl failed: " ++ pyOrStr none "Unknown error")) } :=
  (claim_C5_failure_classification { url := "https://example.com" } {}
    { acquire := .granted, backend := .failure none }).2.2 none rfl rfl rfl

/-- **C10**: a queue timeout raises an error whose message is exactly
"Service too busy, please retry later"; the transport classifies a timeout
outcome as a queue timeout (503) exactly when its message contains
"Service too busy"; and the execution-timeout message never contains that
substring, so the two classifications never collide. -/
theorem claim_C10_timeout_classification (timeout? : Option Nat) (url : String)
    (ft : Rat) (mw : Nat) (ir : Bool) (s : Settings) (o : ExecOracle)
    (req : CrawlRequest) (m : String) (n : Nat) :
    (o.acquire = .timedOut →
      (CrawlerService.crawl_url timeout? url ft mw ir s o).result =
        .error (.timeoutError "Service too busy, please retry later")) ∧
    ((CrawlerService.crawl_url none req.url req.filter_threshold
        req.min_word_threshold false s o).result = .error (.timeoutError m) →
      ((Main.crawl_url req s o).status = 503 ↔
        strContains m "Service too busy" = true)) ∧
    strContains (execTimeoutMsg n) "Service too busy" = false := by
  refine ⟨?_, ?_, execTimeoutMsg_not_busy n⟩
  · intro h
    obtain ⟨acq, qw, setup, backend⟩ := o
    subst h
    rfl
  · intro h
    simp only [Main.crawl_url]
    rw [h]
    cases hb : strContains m "Service too busy" with
    | true => simp [hb]
    | false => simp [hb]

theorem claim_C10_witness :
    (Main.crawl_url { url := "https://example.com" } {}
      { acquire := .timedOut, backend := .success "f" "r" }).status = 503 :=
  ((claim_C10_timeout_classification none "u" 0.48 5 false {}
      { acquire := .timedOut, backend := .success "f" "r" }
      { url := "https://example.com" }
      "Service too busy, please retry later" 0).2.1 rfl).mpr (by decide)

end TinyCrawl
